import Mathlib

/-!
# Verification of the stock_monitor metrics core

Shallow embedding of `src/tech_stocks_monitor.py`.  Python floats are
modelled as exact rationals (`ℚ`); fallible Python code (functions that
may return `None`, or computations that may raise) is modelled with
`Option` / `Except`.  A provider fetch that raises is modelled by the
caller receiving `Option.none`, mirroring the `try/except` blocks that
catch the exception and return `None`.
-/

namespace StockMonitor

/-- A row of the `1d` history DataFrame used by `get_stock_info`:
only the `Close` and `Volume` columns are read. -/
structure TodayRow where
  close : ℚ
  volume : ℤ
  deriving DecidableEq, Repr

/-- The scalar fields of `stock.info` that `get_stock_info` reads;
`Option.none` models a key absent from the provider dictionary. -/
structure ProviderInfo where
  previousClose : Option ℚ
  marketCap : Option ℚ
  deriving DecidableEq, Repr

/-- The dictionary returned by `get_stock_info` on success. -/
structure Snapshot where
  price : ℚ
  prev_close : ℚ
  volume : ℤ
  market_cap : ℚ
  deriving DecidableEq, Repr

/-- The dictionary returned by `get_ma_comparison` on success. -/
structure MaComp where
  ma20 : ℚ
  diff_percent : ℚ
  deriving DecidableEq, Repr

/-- A Python value passed to `format_number`: a number, `None`, or a
non-numeric value such as a string. -/
inductive PyVal where
  | num (q : ℚ)
  | pynone
  | pystr (s : String)
  deriving DecidableEq, Repr

/-- `true` exactly on numeric inputs; on the others the comparison
`number >= 1_000_000_000` raises `TypeError` in Python. -/
def PyVal.isNum : PyVal → Bool
  | .num _ => true
  | _ => false

/-- Round the fraction `n / d` (with `d > 0`) to the nearest integer,
ties to even — the rounding Python's `"%.2f"` formatting applies
(idealised to exact decimal input).  `n.fdiv d` is the floor of the
quotient and `rem / d` its fractional part. -/
def divRoundHalfEven (n d : ℤ) : ℤ :=
  let f : ℤ := n.fdiv d
  let rem : ℤ := n - f * d
  if 2 * rem < d then f
  else if d < 2 * rem then f + 1
  else if f % 2 = 0 then f else f + 1

/-- Embedding of the Python f-string `f"{x:.2f}"`: fixed-point rendering
with exactly two digits after the decimal point.  The number of cents is
the rounding of `q * 100 = (q.num * 100) / q.den`. -/
def fmt2 (q : ℚ) : String :=
  let cents : ℤ := divRoundHalfEven (q.num * 100) (q.den : ℤ)
  let sign : String := if cents < 0 then "-" else ""
  let a : ℕ := cents.natAbs
  let ip : ℕ := a / 100
  let fp : ℕ := a % 100
  sign ++ toString ip ++ "." ++ (if fp < 10 then "0" ++ toString fp else toString fp)

/-- Embedding of `format_number` (src/tech_stocks_monitor.py:46-57).
The bare `except` catches the `TypeError` raised by comparing a
non-number against `1_000_000_000` and returns `"N/A"`; numeric inputs
never raise, so the function is total. -/
def format_number : PyVal → String
  | .num q =>
    if q ≥ 1000000000 then fmt2 (q / 1000000000) ++ "B"
    else if q ≥ 1000000 then fmt2 (q / 1000000) ++ "M"
    else if q ≥ 1000 then fmt2 (q / 1000) ++ "K"
    else fmt2 q
  | _ => "N/A"

/-- Embedding of `get_stock_info` (src/tech_stocks_monitor.py:21-44) for a
fetch that did not raise: `today_data` is the `1d` history and `info` the
provider dictionary.  When the history is empty the function falls
through to `return None`.  A provider exception is caught by the
surrounding `try/except` and likewise yields `None` to the caller. -/
def get_stock_info (today_data : List TodayRow) (info : ProviderInfo) : Option Snapshot :=
  if today_data.length > 0 then
    match today_data.getLast? with
    | some row =>
      let current_price := row.close
      some { price := current_price
           , prev_close := info.previousClose.getD current_price
           , volume := row.volume
           , market_cap := info.marketCap.getD 0 }
    | Option.none => Option.none
  else Option.none

/-- Spec-side formulation: the arithmetic mean of the closing prices of
the last `w` bars of `l` (`sum / w`). -/
def lastMean (w : ℕ) (l : List ℚ) : ℚ :=
  (l.drop (l.length - w)).sum / (w : ℚ)

/-- Embedding of `get_ma_comparison` (src/tech_stocks_monitor.py:59-76).
The argument is the `Close` column of the downloaded month of daily
bars; `Option.none` models a download that raised.  The last entry of
`rolling(window=20).mean()` is the mean of the last 20 closes, i.e.
`(closes.drop (closes.length - 20)).sum / 20`.  When that mean is zero
the expression `((current_price - ma20) / ma20) * 100` raises
`ZeroDivisionError`, which the surrounding `except` catches, so the
function returns `None` in that case. -/
def get_ma_comparison : Option (List ℚ) → Option MaComp
  | Option.none => Option.none
  | some closes =>
    if closes ≠ [] ∧ 20 ≤ closes.length then
      match closes.getLast? with
      | some current_price =>
        let ma20 := (closes.drop (closes.length - 20)).sum / 20
        if ma20 = 0 then Option.none
        else some { ma20 := ma20, diff_percent := (current_price - ma20) / ma20 * 100 }
      | Option.none => Option.none
    else Option.none

/-- A timezone-aware instant reduced to the fields `get_market_status`
reads after converting to `America/New_York`: the Python `weekday()`
(0 = Monday, …, 5 = Saturday, 6 = Sunday) and the local time of day. -/
structure LocalTime where
  weekday : ℕ
  hour : ℕ
  minute : ℕ
  second : ℕ
  microsecond : ℕ
  deriving DecidableEq, Repr

/-- The time of day in microseconds since local midnight.  Comparing two
aware datetimes that share their date and timezone — as `now`,
`now.replace(hour=9, minute=30, …)` and `now.replace(hour=16, …)` do —
compares exactly this quantity. -/
def tod (t : LocalTime) : ℕ :=
  ((t.hour * 60 + t.minute) * 60 + t.second) * 1000000 + t.microsecond

/-- The string `get_market_status` returns while the market is open. -/
def statusOpen : String := "🟢 交易中"

/-- The string `get_market_status` returns while the market is closed. -/
def statusClosed : String := "🔴 休市中"

/-- Embedding of `get_market_status` (src/tech_stocks_monitor.py:78-93).
`market_open` is 09:30:00.000000 and `market_close` 16:00:00.000000 in
microseconds; the Python test is `market_open <= now <= market_close`,
inclusive at both ends. -/
def get_market_status (now : LocalTime) : String :=
  if now.weekday ≥ 5 then statusClosed
  else
    let market_open := ((9 * 60 + 30) * 60) * 1000000
    let market_close := ((16 * 60) * 60) * 1000000
    if market_open ≤ tod now ∧ tod now ≤ market_close then statusOpen
    else statusClosed

/-- Spec-side formulation: `percent_change(current, baseline) =
(current - baseline) / baseline * 100`. -/
def percent_change (current baseline : ℚ) : ℚ :=
  (current - baseline) / baseline * 100

/-- The per-symbol card rendered by `main`: either the four numbers of a
populated card, or the `"No data"` card. -/
inductive CardOutput where
  | metrics (price change_percent ma20 diff_percent : ℚ)
  | noData
  deriving DecidableEq, Repr

/-- Embedding of the body of `main`'s per-symbol loop
(src/tech_stocks_monitor.py:213-252).  The pair holds the results of
`get_stock_info` and `get_ma_comparison`; `if data and ma_data:` takes
the populated branch only when both are present.  The division
`((current_price - prev_close) / prev_close) * 100` on line 220 is not
inside any `try`, so a zero `prev_close` raises `ZeroDivisionError`,
modelled by `Except.error ()`. -/
def processSymbol : Option Snapshot × Option MaComp → Except Unit CardOutput
  | (some data, some ma_data) =>
    if data.prev_close = 0 then Except.error ()
    else
      Except.ok (CardOutput.metrics data.price
        ((data.price - data.prev_close) / data.prev_close * 100)
        ma_data.ma20 ma_data.diff_percent)
  | _ => Except.ok CardOutput.noData

/-- Embedding of `main`'s loop over the seven symbols: each symbol's
fetched data is processed in order; an uncaught exception in one
iteration aborts the refresh cycle. -/
def runCycle : List (Option Snapshot × Option MaComp) → Except Unit (List CardOutput)
  | [] => Except.ok []
  | f :: rest =>
    match processSymbol f with
    | Except.error e => Except.error e
    | Except.ok o =>
      match runCycle rest with
      | Except.error e => Except.error e
      | Except.ok os => Except.ok (o :: os)

/-- A reduced fraction literal `Rat.mk' n d` equals the division `n / d`
in `ℚ`; used to bring rational values into a form whose numerator and
denominator the kernel can read off. -/
theorem mk'_eq_div (n : ℤ) (d : ℕ) (h1 : d ≠ 0) (h2 : n.natAbs.Coprime d) :
    (Rat.mk' n d h1 h2 : ℚ) = (n : ℚ) / (d : ℚ) := by
  rw [Rat.mk'_eq_divInt, Rat.divInt_eq_div]
  norm_cast

/-! ### Helper lemmas -/

/-- The denominator `20` written as a cast from `ℕ` agrees with the
rational literal used in `get_ma_comparison`. -/
theorem lastMean_twenty (closes : List ℚ) :
    lastMean 20 closes = (closes.drop (closes.length - 20)).sum / 20 := by
  simp [lastMean]

/-- `get_ma_comparison` on fewer than 20 bars takes the `else` branch
(`st.warning`, then `return None`). -/
theorem get_ma_comparison_short (closes : List ℚ) (h : closes.length < 20) :
    get_ma_comparison (some closes) = Option.none := by
  simp only [get_ma_comparison]
  rw [if_neg]
  rintro ⟨-, h2⟩
  omega

/-- Evaluation of `get_ma_comparison` on at least 20 bars: the result is
keyed on whether the 20-bar mean is zero. -/
theorem get_ma_comparison_long (closes : List ℚ) (cur : ℚ)
    (h20 : 20 ≤ closes.length) (hlast : closes.getLast? = some cur) :
    get_ma_comparison (some closes) =
      (if lastMean 20 closes = 0 then Option.none
       else some { ma20 := lastMean 20 closes
                 , diff_percent := percent_change cur (lastMean 20 closes) }) := by
  have hne : closes ≠ [] := by
    intro h
    rw [h] at h20
    simp at h20
  simp only [get_ma_comparison]
  rw [if_pos ⟨hne, h20⟩, hlast, lastMean_twenty]
  rfl

/-- `main`'s populated branch with a non-zero previous close. -/
theorem processSymbol_ok (d : Snapshot) (m : MaComp) (h : d.prev_close ≠ 0) :
    processSymbol (some d, some m) =
      Except.ok (CardOutput.metrics d.price (percent_change d.price d.prev_close)
        m.ma20 m.diff_percent) := by
  simp only [processSymbol]
  rw [if_neg h]
  rfl

/-- `main`'s populated branch with a zero previous close raises
`ZeroDivisionError`. -/
theorem processSymbol_raise (d : Snapshot) (m : MaComp) (h : d.prev_close = 0) :
    processSymbol (some d, some m) = Except.error () := by
  simp only [processSymbol]
  rw [if_pos h]

/-- A symbol whose fetch failed (either helper returned `None`) renders
the `"No data"` card. -/
theorem processSymbol_noData (p : Option Snapshot × Option MaComp)
    (h : p.1 = Option.none ∨ p.2 = Option.none) :
    processSymbol p = Except.ok CardOutput.noData := by
  obtain ⟨a, b⟩ := p
  rcases h with h | h
  · simp only at h
    subst h
    cases b <;> rfl
  · simp only at h
    subst h
    cases a <;> rfl

/-- One successful step of the refresh loop prepends its card. -/
theorem runCycle_cons_ok (f : Option Snapshot × Option MaComp)
    (rest : List (Option Snapshot × Option MaComp)) (o : CardOutput) (os : List CardOutput)
    (hf : processSymbol f = Except.ok o) (hr : runCycle rest = Except.ok os) :
    runCycle (f :: rest) = Except.ok (o :: os) := by
  simp only [runCycle, hf, hr]

/-! ### Claims -/

/-- C4: for every current value and every non-zero baseline, the percent
change computed by the code equals `(current - baseline) / baseline * 100`
— both at `main`'s percent-change-vs-previous-close site (line 220) and at
`get_ma_comparison`'s deviation-vs-MA site (line 67); in particular
`percent_change 110 100 = 10` and `percent_change 90 100 = -10`. -/
theorem percent_change_formula :
    (∀ d : Snapshot, ∀ m : MaComp, d.prev_close ≠ 0 →
      processSymbol (some d, some m) =
        Except.ok (CardOutput.metrics d.price (percent_change d.price d.prev_close)
          m.ma20 m.diff_percent)) ∧
    (∀ closes : List ℚ, ∀ r : MaComp, ∀ cur : ℚ,
      get_ma_comparison (some closes) = some r → closes.getLast? = some cur →
      r.diff_percent = percent_change cur r.ma20) ∧
    percent_change 110 100 = 10 ∧ percent_change 90 100 = -10 := by
  refine ⟨processSymbol_ok, ?_, by norm_num [percent_change], by norm_num [percent_change]⟩
  intro closes r cur h hlast
  by_cases h20 : 20 ≤ closes.length
  · rw [get_ma_comparison_long closes cur h20 hlast] at h
    by_cases hz : lastMean 20 closes = 0
    · rw [if_pos hz] at h
      exact absurd h (by simp)
    · rw [if_neg hz] at h
      obtain rfl := Option.some.inj h
      rfl
  · rw [get_ma_comparison_short closes (by omega)] at h
    exact absurd h (by simp)

/-- Witness for C4 at a concrete snapshot and concrete operands. -/
theorem percent_change_formula_w :
    processSymbol (some ⟨110, 100, 0, 0⟩, some ⟨1, 1⟩) =
      Except.ok (CardOutput.metrics 110 (percent_change 110 100) 1 1) ∧
    percent_change 110 100 = 10 :=
  ⟨percent_change_formula.1 ⟨110, 100, 0, 0⟩ ⟨1, 1⟩ (by norm_num),
   percent_change_formula.2.2.1⟩

/-- C5: `format_number` scales a numeric input to the largest applicable
suffix among billions, millions, thousands or none, rendering the scaled
value with two decimal places; `format_number 1500000000 = "1.50B"` and
`format_number 2500 = "2.50K"`. -/
theorem format_scales :
    (∀ q : ℚ, 1000000000 ≤ q →
      format_number (PyVal.num q) = fmt2 (q / 1000000000) ++ "B") ∧
    (∀ q : ℚ, 1000000 ≤ q → q < 1000000000 →
      format_number (PyVal.num q) = fmt2 (q / 1000000) ++ "M") ∧
    (∀ q : ℚ, 1000 ≤ q → q < 1000000 →
      format_number (PyVal.num q) = fmt2 (q / 1000) ++ "K") ∧
    (∀ q : ℚ, q < 1000 → format_number (PyVal.num q) = fmt2 q) ∧
    format_number (PyVal.num 1500000000) = "1.50B" ∧
    format_number (PyVal.num 2500) = "2.50K" := by
  refine ⟨?_, ?_, ?_, ?_, ?_, ?_⟩
  · intro q h
    simp only [format_number]
    rw [if_pos h]
  · intro q h1 h2
    simp only [format_number]
    rw [if_neg (by linarith), if_pos h1]
  · intro q h1 h2
    simp only [format_number]
    rw [if_neg (by linarith), if_neg (by linarith), if_pos h1]
  · intro q h
    simp only [format_number]
    rw [if_neg (by linarith), if_neg (by linarith), if_neg (by linarith)]
  · have h : (1500000000:ℚ) / 1000000000 = Rat.mk' 3 2 (by decide) (by decide) := by
      rw [mk'_eq_div]; norm_num
    simp only [format_number]
    rw [if_pos (by norm_num), h]
    decide
  · have h : (2500:ℚ) / 1000 = Rat.mk' 5 2 (by decide) (by decide) := by
      rw [mk'_eq_div]; norm_num
    simp only [format_number]
    rw [if_neg (by norm_num), if_neg (by norm_num), if_pos (by norm_num), h]
    decide

/-- Witness for C5: the ranged conjuncts instantiated at concrete inputs. -/
theorem format_scales_w :
    format_number (PyVal.num 2000000000) = fmt2 ((2000000000 : ℚ) / 1000000000) ++ "B" ∧
    format_number (PyVal.num 5000000) = fmt2 ((5000000 : ℚ) / 1000000) ++ "M" ∧
    format_number (PyVal.num 500000) = fmt2 ((500000 : ℚ) / 1000) ++ "K" ∧
    format_number (PyVal.num 500) = fmt2 (500 : ℚ) :=
  ⟨format_scales.1 2000000000 (by norm_num),
   format_scales.2.1 5000000 (by norm_num) (by norm_num),
   format_scales.2.2.1 500000 (by norm_num) (by norm_num),
   format_scales.2.2.2.1 500 (by norm_num)⟩

/-- C6: `format_number` never raises — it is a total function — and on
`None` or any non-numeric input, where the Python comparison raises
`TypeError` into the bare `except`, it returns the sentinel `"N/A"`. -/
theorem nonnumeric_na :
    (∀ v : PyVal, v.isNum = false → format_number v = "N/A") ∧
    format_number PyVal.pynone = "N/A" := by
  constructor
  · intro v hv
    cases v with
    | num q => simp [PyVal.isNum] at hv
    | pynone => rfl
    | pystr s => rfl
  · rfl

/-- Witness for C6 at a concrete non-numeric input. -/
theorem nonnumeric_na_w : format_number (PyVal.pystr "x") = "N/A" :=
  nonnumeric_na.1 (PyVal.pystr "x") rfl

/-- C7: on Saturday (weekday 5) and Sunday (weekday 6) in the exchange's
timezone, `get_market_status` returns the closed indicator regardless of
the time of day. -/
theorem weekend_closed (t : LocalTime) (h : t.weekday = 5 ∨ t.weekday = 6) :
    get_market_status t = statusClosed := by
  rcases h with h | h <;>
    · simp only [get_market_status]
      rw [if_pos (by omega)]

/-- Witness for C7 at Saturday noon. -/
theorem weekend_closed_w : get_market_status ⟨5, 12, 0, 0, 0⟩ = statusClosed :=
  weekend_closed ⟨5, 12, 0, 0, 0⟩ (Or.inl rfl)

/-- C10: every negative numeric input falls through all three threshold
comparisons — they compare the signed value, not its absolute value — so
it is rendered plainly with two decimals and no suffix, regardless of
magnitude: `format_number (-1500000000) = "-1500000000.00"`. -/
theorem negative_no_suffix :
    (∀ q : ℚ, q < 0 → format_number (PyVal.num q) = fmt2 q) ∧
    format_number (PyVal.num (-1500000000)) = "-1500000000.00" := by
  constructor
  · intro q hq
    simp only [format_number]
    rw [if_neg (by linarith), if_neg (by linarith), if_neg (by linarith)]
  · have h : (-1500000000 : ℚ) = Rat.mk' (-1500000000) 1 (by decide) (by decide) := by
      rw [mk'_eq_div]; norm_num
    simp only [format_number]
    rw [if_neg (by norm_num), if_neg (by norm_num), if_neg (by norm_num), h]
    decide

/-- Witness for C10 at a concrete negative input. -/
theorem negative_no_suffix_w : format_number (PyVal.num (-1)) = fmt2 (-1) :=
  negative_no_suffix.1 (-1) (by norm_num)

/-- C1 counterexample: a sequence of 20 bars whose closes are all zero
has at least 20 bars, yet `get_ma_comparison` returns `None` — the
deviation computation divides by the zero mean, the raised
`ZeroDivisionError` is caught, and no `ma20` is returned at all. -/
theorem ma20_zero_mean_cex :
    get_ma_comparison (some (List.replicate 19 (0:ℚ) ++ [0])) = Option.none ∧
    20 ≤ (List.replicate 19 (0:ℚ) ++ [0]).length := by
  have hz : lastMean 20 (List.replicate 19 (0:ℚ) ++ [0]) = 0 := by
    simp [lastMean]
  constructor
  · rw [get_ma_comparison_long _ 0 (by simp) (by simp), if_pos hz]
  · simp

/-- C1 (amended): fewer than 20 bars gives `None`; at least 20 bars with
a non-zero 20-bar mean gives `ma20` equal to the arithmetic mean of the
last 20 closes; at least 20 bars with a zero mean also gives `None`
(caught `ZeroDivisionError`).  Window 3 over closes `[10, 20, 30]` means
to `20`. -/
theorem ma20_correct :
    (∀ closes : List ℚ, closes.length < 20 →
      get_ma_comparison (some closes) = Option.none) ∧
    (∀ closes : List ℚ, ∀ cur : ℚ, 20 ≤ closes.length → closes.getLast? = some cur →
      lastMean 20 closes ≠ 0 →
      get_ma_comparison (some closes) =
        some { ma20 := lastMean 20 closes
             , diff_percent := percent_change cur (lastMean 20 closes) }) ∧
    (∀ closes : List ℚ, ∀ cur : ℚ, 20 ≤ closes.length → closes.getLast? = some cur →
      lastMean 20 closes = 0 → get_ma_comparison (some closes) = Option.none) ∧
    lastMean 3 [10, 20, 30] = 20 := by
  refine ⟨get_ma_comparison_short, ?_, ?_, ?_⟩
  · intro closes cur h20 hlast hnz
    rw [get_ma_comparison_long closes cur h20 hlast, if_neg hnz]
  · intro closes cur h20 hlast hz
    rw [get_ma_comparison_long closes cur h20 hlast, if_pos hz]
  · norm_num [lastMean]

/-- Witness for C1 at a short sequence and at a 20-bar sequence with
mean 5. -/
theorem ma20_correct_w :
    get_ma_comparison (some [(1:ℚ)]) = Option.none ∧
    get_ma_comparison (some (List.replicate 19 (0:ℚ) ++ [100])) =
      some { ma20 := lastMean 20 (List.replicate 19 (0:ℚ) ++ [100])
           , diff_percent :=
               percent_change 100 (lastMean 20 (List.replicate 19 (0:ℚ) ++ [100])) } :=
  ⟨ma20_correct.1 [(1:ℚ)] (by simp),
   ma20_correct.2.1 (List.replicate 19 (0:ℚ) ++ [100]) 100 (by simp) (by simp)
     (by norm_num [lastMean])⟩

/-- C2 counterexample: with both fetches successful and a previous close
of zero, `main`'s percent-change division raises `ZeroDivisionError`
(uncaught in `main`) instead of marking the metric unavailable. -/
theorem percent_zero_baseline_cex :
    processSymbol (some { price := 100, prev_close := 0, volume := 0, market_cap := 0 },
        some { ma20 := 50, diff_percent := 10 }) = Except.error () :=
  processSymbol_raise _ _ rfl

/-- C2 (amended): the deviation-vs-MA percent is computed only for a
non-zero denominator — a zero 20-bar mean yields `None` because the
`ZeroDivisionError` is caught inside `get_ma_comparison` — but the
percent change vs previous close in `main` is computed with no zero
check: a zero `prev_close` raises, aborting the render, rather than
marking the metric unavailable. -/
theorem zero_denominator_behavior :
    (∀ closes : List ℚ, ∀ cur : ℚ, 20 ≤ closes.length → closes.getLast? = some cur →
      lastMean 20 closes = 0 → get_ma_comparison (some closes) = Option.none) ∧
    (∀ d : Snapshot, ∀ m : MaComp, d.prev_close = 0 →
      processSymbol (some d, some m) = Except.error ()) ∧
    (∀ d : Snapshot, ∀ m : MaComp, d.prev_close ≠ 0 →
      processSymbol (some d, some m) =
        Except.ok (CardOutput.metrics d.price (percent_change d.price d.prev_close)
          m.ma20 m.diff_percent)) := by
  refine ⟨?_, processSymbol_raise, processSymbol_ok⟩
  intro closes cur h20 hlast hz
  rw [get_ma_comparison_long closes cur h20 hlast, if_pos hz]

/-- Witness for C2 at concrete inputs for all three branches. -/
theorem zero_denominator_behavior_w :
    get_ma_comparison (some (List.replicate 20 (0:ℚ))) = Option.none ∧
    processSymbol (some { price := 5, prev_close := 0, volume := 0, market_cap := 0 },
        some { ma20 := 1, diff_percent := 1 }) = Except.error () ∧
    processSymbol (some { price := 5, prev_close := 4, volume := 0, market_cap := 0 },
        some { ma20 := 1, diff_percent := 1 }) =
      Except.ok (CardOutput.metrics 5 (percent_change 5 4) 1 1) :=
  ⟨zero_denominator_behavior.1 (List.replicate 20 (0:ℚ)) 0 (by simp) (by simp)
     (by simp [lastMean]),
   zero_denominator_behavior.2.1 _ _ rfl,
   zero_denominator_behavior.2.2 _ _ (by norm_num)⟩

/-- C3 counterexample: on a Wednesday at exactly 16:00:00.000000 local
time — an instant not inside the half-open window `[09:30, 16:00)` — the
code returns the open indicator, because its comparison
`market_open <= now <= market_close` is inclusive at the right end. -/
theorem session_boundary_cex :
    get_market_status ⟨2, 16, 0, 0, 0⟩ = statusOpen ∧
    ¬ tod ⟨2, 16, 0, 0, 0⟩ < ((16 * 60) * 60) * 1000000 := by
  exact ⟨by decide, by decide⟩

/-- C3 (amended): on weekdays the status is open exactly when the local
time of day lies in the closed window `[09:30:00.000000,
16:00:00.000000]` — inclusive, not half-open, at the right end — so
Wednesday 10:00 is open and 17:00 is closed, but exactly 16:00 is also
open. -/
theorem session_window :
    (∀ t : LocalTime, t.weekday < 5 →
      (get_market_status t = statusOpen ↔
        ((9 * 60 + 30) * 60) * 1000000 ≤ tod t ∧ tod t ≤ ((16 * 60) * 60) * 1000000)) ∧
    (∀ t : LocalTime, t.weekday < 5 → ((16 * 60) * 60) * 1000000 < tod t →
      get_market_status t = statusClosed) ∧
    get_market_status ⟨2, 10, 0, 0, 0⟩ = statusOpen ∧
    get_market_status ⟨2, 17, 0, 0, 0⟩ = statusClosed ∧
    get_market_status ⟨2, 16, 0, 0, 0⟩ = statusOpen := by
  have key : ∀ t : LocalTime, t.weekday < 5 →
      get_market_status t =
        (if ((9 * 60 + 30) * 60) * 1000000 ≤ tod t ∧ tod t ≤ ((16 * 60) * 60) * 1000000
         then statusOpen else statusClosed) := by
    intro t ht
    simp only [get_market_status]
    rw [if_neg (by omega)]
  refine ⟨?_, ?_, by decide, by decide, by decide⟩
  · intro t ht
    rw [key t ht]
    by_cases hc : ((9 * 60 + 30) * 60) * 1000000 ≤ tod t ∧ tod t ≤ ((16 * 60) * 60) * 1000000
    · rw [if_pos hc]
      exact iff_of_true rfl hc
    · rw [if_neg hc]
      exact iff_of_false (by decide) hc
  · intro t ht h16
    rw [key t ht, if_neg (by omega)]

/-- Witness for C3 at a Tuesday noon and a Thursday evening. -/
theorem session_window_w :
    (get_market_status ⟨1, 12, 0, 0, 0⟩ = statusOpen ↔
      ((9 * 60 + 30) * 60) * 1000000 ≤ tod ⟨1, 12, 0, 0, 0⟩ ∧
        tod ⟨1, 12, 0, 0, 0⟩ ≤ ((16 * 60) * 60) * 1000000) ∧
    get_market_status ⟨3, 20, 0, 0, 0⟩ = statusClosed :=
  ⟨session_window.1 ⟨1, 12, 0, 0, 0⟩ (by decide),
   session_window.2.1 ⟨3, 20, 0, 0, 0⟩ (by decide) (by decide)⟩

/-- C8: in a multi-symbol refresh cycle, a fetch failure for one symbol
(either of its two fetch helpers returned `None`, having caught the
provider exception or seen an empty result) renders the `"No data"`
card for that symbol only; it raises no exception, and every other
symbol's card is exactly what its own fetched data produces. -/
theorem fetch_failure_isolated
    (pre post : List (Option Snapshot × Option MaComp))
    (bad : Option Snapshot × Option MaComp)
    (hbad : bad.1 = Option.none ∨ bad.2 = Option.none)
    (outsPre outsPost : List CardOutput)
    (hpre : runCycle pre = Except.ok outsPre)
    (hpost : runCycle post = Except.ok outsPost) :
    runCycle (pre ++ bad :: post) =
      Except.ok (outsPre ++ CardOutput.noData :: outsPost) := by
  revert hpre
  induction pre generalizing outsPre with
  | nil =>
    intro hpre
    simp only [runCycle] at hpre
    injection hpre with h
    subst h
    show runCycle (bad :: post) = Except.ok (CardOutput.noData :: outsPost)
    exact runCycle_cons_ok bad post _ _ (processSymbol_noData bad hbad) hpost
  | cons f rest ih =>
    intro hpre
    simp only [runCycle] at hpre
    cases hf : processSymbol f with
    | error e =>
      rw [hf] at hpre
      exact Except.noConfusion hpre
    | ok o =>
      simp only [hf] at hpre
      cases hr : runCycle rest with
      | error e =>
        rw [hr] at hpre
        exact Except.noConfusion hpre
      | ok os =>
        simp only [hr] at hpre
        injection hpre with h
        subst h
        rw [List.cons_append, List.cons_append]
        exact runCycle_cons_ok f (rest ++ bad :: post) o (os ++ CardOutput.noData :: outsPost)
          hf (ih os hr)

/-- Witness for C8: a three-symbol cycle whose middle fetch failed. -/
theorem fetch_failure_isolated_w :
    runCycle [(some ⟨100, 50, 1000, 0⟩, some ⟨90, 5⟩), (Option.none, Option.none),
              (some ⟨10, 8, 7, 6⟩, some ⟨9, 2⟩)] =
      Except.ok [CardOutput.metrics 100 ((100 - 50) / 50 * 100) 90 5, CardOutput.noData,
                 CardOutput.metrics 10 ((10 - 8) / 8 * 100) 9 2] := by
  have h := fetch_failure_isolated
    [(some ⟨100, 50, 1000, 0⟩, some ⟨90, 5⟩)]
    [(some ⟨10, 8, 7, 6⟩, some ⟨9, 2⟩)]
    (Option.none, Option.none) (Or.inl rfl)
    [CardOutput.metrics 100 ((100 - 50) / 50 * 100) 90 5]
    [CardOutput.metrics 10 ((10 - 8) / 8 * 100) 9 2]
    (by norm_num [runCycle, processSymbol])
    (by norm_num [runCycle, processSymbol])
  simpa using h

/-- C9 counterexample: when the provider omits `previousClose` and the
current price is zero, the default makes `prev_close` zero as well, and
the displayed percent change is not `0` — the division in `main` raises
`ZeroDivisionError`. -/
theorem default_prev_close_cex :
    get_stock_info [{ close := 0, volume := 5 }]
        { previousClose := Option.none, marketCap := Option.none } =
      some { price := 0, prev_close := 0, volume := 5, market_cap := 0 } ∧
    processSymbol
        (get_stock_info [{ close := 0, volume := 5 }]
          { previousClose := Option.none, marketCap := Option.none },
         some { ma20 := 1, diff_percent := 1 }) = Except.error () := by
  exact ⟨rfl, rfl⟩

/-- C9 (amended): when the provider omits `previousClose`, the snapshot's
`prev_close` defaults to the current price, so for a non-zero current
price the displayed percent change vs previous close is exactly `0`
(for a zero current price the division raises instead); a missing
`marketCap` is reported as `0` rather than unavailable. -/
theorem default_prev_close
    (rows : List TodayRow) (row : TodayRow) (info : ProviderInfo) (m : MaComp)
    (hlast : rows.getLast? = some row)
    (hpc : info.previousClose = Option.none)
    (hmc : info.marketCap = Option.none) :
    get_stock_info rows info =
      some { price := row.close, prev_close := row.close
           , volume := row.volume, market_cap := 0 } ∧
    (row.close ≠ 0 →
      processSymbol (get_stock_info rows info, some m) =
        Except.ok (CardOutput.metrics row.close 0 m.ma20 m.diff_percent)) := by
  have hlen : 0 < rows.length := by
    cases rows with
    | nil => simp at hlast
    | cons a l => simp
  have h1 : get_stock_info rows info =
      some { price := row.close, prev_close := row.close
           , volume := row.volume, market_cap := 0 } := by
    simp only [get_stock_info]
    rw [if_pos hlen, hlast, hpc, hmc]
    rfl
  refine ⟨h1, ?_⟩
  intro hnz
  rw [h1, processSymbol_ok _ m hnz]
  congr 2
  simp [percent_change]

/-- Witness for C9 at a one-row history with close 250 and a provider
dictionary missing both fields. -/
theorem default_prev_close_w :
    get_stock_info [{ close := 250, volume := 12 }]
        { previousClose := Option.none, marketCap := Option.none } =
      some { price := 250, prev_close := 250, volume := 12, market_cap := 0 } ∧
    processSymbol
        (get_stock_info [{ close := 250, volume := 12 }]
          { previousClose := Option.none, marketCap := Option.none },
         some { ma20 := 1, diff_percent := 1 }) =
      Except.ok (CardOutput.metrics 250 0 1 1) := by
  have h := default_prev_close [{ close := 250, volume := 12 }] { close := 250, volume := 12 }
    { previousClose := Option.none, marketCap := Option.none } { ma20 := 1, diff_percent := 1 }
    rfl rfl rfl
  exact ⟨h.1, h.2 (by norm_num)⟩

end StockMonitor

